import Mathlib

/-!
Verification of the Feishu notification channel (`src/lib/channels/feishu.ts`).

The development shallowly embeds the channel's signing function
(`generateFeishuSign`, built on WebCrypto HMAC-SHA-256 and `btoa`), its
static template catalog, and the `sendMessage` delivery pipeline.  Machine
integers are modelled as `Nat` with explicit reduction modulo `2^32`;
JavaScript's `JSON.parse` and the `fetch` transport are external
collaborators and are modelled explicitly below where the code relies on
them.
-/

namespace Feishu

/-! ## 32-bit word arithmetic (model of the WebCrypto SHA-256 primitive) -/

/-- Truncate to a 32-bit word. -/
def w32 (n : Nat) : Nat := n % 4294967296

/-- Right rotation of a 32-bit word by `b` bits (for `0 < b < 32`). -/
def rotr (b n : Nat) : Nat := w32 (n / 2 ^ b + n % 2 ^ b * 2 ^ (32 - b))

/-- Logical right shift of a 32-bit word. -/
def shr (b n : Nat) : Nat := n / 2 ^ b

/-- Bitwise complement within 32 bits. -/
def notw (n : Nat) : Nat := Nat.xor n 4294967295

/-- SHA-256 choice function. -/
def ch (x y z : Nat) : Nat := Nat.xor (Nat.land x y) (Nat.land (notw x) z)

/-- SHA-256 majority function. -/
def maj (x y z : Nat) : Nat :=
  Nat.xor (Nat.xor (Nat.land x y) (Nat.land x z)) (Nat.land y z)

/-- SHA-256 big sigma 0. -/
def bigS0 (x : Nat) : Nat := Nat.xor (Nat.xor (rotr 2 x) (rotr 13 x)) (rotr 22 x)

/-- SHA-256 big sigma 1. -/
def bigS1 (x : Nat) : Nat := Nat.xor (Nat.xor (rotr 6 x) (rotr 11 x)) (rotr 25 x)

/-- SHA-256 small sigma 0. -/
def smallS0 (x : Nat) : Nat := Nat.xor (Nat.xor (rotr 7 x) (rotr 18 x)) (shr 3 x)

/-- SHA-256 small sigma 1. -/
def smallS1 (x : Nat) : Nat := Nat.xor (Nat.xor (rotr 17 x) (rotr 19 x)) (shr 10 x)

/-- The 64 SHA-256 round constants (FIPS 180-4, here in decimal). -/
def sha256K : List Nat :=
  [1116352408, 1899447441, 3049323471, 3921009573, 961987163,
   1508970993, 2453635748, 2870763221, 3624381080, 310598401,
   607225278, 1426881987, 1925078388, 2162078206, 2614888103,
   3248222580, 3835390401, 4022224774, 264347078, 604807628,
   770255983, 1249150122, 1555081692, 1996064986, 2554220882,
   2821834349, 2952996808, 3210313671, 3336571891, 3584528711,
   113926993, 338241895, 666307205, 773529912, 1294757372,
   1396182291, 1695183700, 1986661051, 2177026350, 2456956037,
   2730485921, 2820302411, 3259730800, 3345764771, 3516065817,
   3600352804, 4094571909, 275423344, 430227734, 506948616,
   659060556, 883997877, 958139571, 1322822218, 1537002063,
   1747873779, 1955562222, 2024104815, 2227730452, 2361852424,
   2428436474, 2756734187, 3204031479, 3329325298]

/-- The SHA-256 initial hash value (FIPS 180-4, here in decimal). -/
def sha256H0 : List Nat :=
  [1779033703, 3144134277, 1013904242, 2773480762,
   1359893119, 2600822924, 528734635, 1541459225]

/-- Extend the message schedule: `acc` holds the words produced so far in
reverse order (most recent first); `n` words remain to be produced. -/
def extendSchedule : Nat → List Nat → List Nat
  | 0, acc => acc.reverse
  | n + 1, acc =>
      let next := w32 (smallS1 (acc.getD 1 0) + acc.getD 6 0 +
                       smallS0 (acc.getD 14 0) + acc.getD 15 0)
      extendSchedule n (next :: acc)

/-- Full 64-word message schedule from a 16-word block. -/
def schedule (block : List Nat) : List Nat :=
  extendSchedule 48 block.reverse

/-- One SHA-256 compression round on the eight working variables. -/
def compressRound : List Nat → Nat × Nat → List Nat
  | [a, b, c, d, e, f, g, h], (k, w) =>
      let t1 := w32 (h + bigS1 e + ch e f g + k + w)
      let t2 := w32 (bigS0 a + maj a b c)
      [w32 (t1 + t2), a, b, c, w32 (d + t1), e, f, g]
  | st, _ => st

/-- Process one 16-word block against the running hash value. -/
def processBlock (hv : List Nat) (block : List Nat) : List Nat :=
  let out := List.foldl compressRound hv (sha256K.zip (schedule block))
  (hv.zip out).map (fun p => w32 (p.1 + p.2))

/-- Big-endian byte decomposition of `n` into `k` bytes. -/
def natToBytesBE : Nat → Nat → List Nat
  | 0, _ => []
  | k + 1, n => natToBytesBE k (n / 256) ++ [n % 256]

/-- Group bytes into big-endian 32-bit words. -/
def bytesToWords : List Nat → List Nat
  | b0 :: b1 :: b2 :: b3 :: rest =>
      (((b0 * 256 + b1) * 256 + b2) * 256 + b3) :: bytesToWords rest
  | _ => []

/-- Split a word list into 16-word blocks; `fuel` bounds the recursion. -/
def chunkWords : Nat → List Nat → List (List Nat)
  | 0, _ => []
  | _ + 1, [] => []
  | n + 1, ws => ws.take 16 :: chunkWords n (ws.drop 16)

/-- SHA-256 padding: append `0x80`, zero bytes to 56 mod 64, and the
64-bit big-endian bit length. -/
def padMessage (msg : List Nat) : List Nat :=
  msg ++ [128] ++ List.replicate ((119 - msg.length % 64) % 64) 0 ++
    natToBytesBE 8 (msg.length * 8)

/-- SHA-256 of a byte sequence, as 32 bytes. -/
def sha256 (msg : List Nat) : List Nat :=
  let ws := bytesToWords (padMessage msg)
  let hv := List.foldl processBlock sha256H0 (chunkWords ws.length ws)
  (hv.map (natToBytesBE 4)).flatten

/-- HMAC-SHA-256 (RFC 2104) of `msg` under `key`, as 32 bytes.  This is
what `crypto.subtle.sign('HMAC', key, msg)` computes for a key imported
with hash SHA-256. -/
def hmacSha256 (key msg : List Nat) : List Nat :=
  let k0 := if 64 < key.length then sha256 key else key
  let kp := k0 ++ List.replicate (64 - k0.length) 0
  sha256 (kp.map (Nat.xor 92) ++ sha256 (kp.map (Nat.xor 54) ++ msg))

/-- The base64 alphabet. -/
def b64Char (n : Nat) : Char :=
  "ABCDEFGHIJKLMNOPQRSTUVWXYZabcdefghijklmnopqrstuvwxyz0123456789+/".toList.getD n 'A'

/-- Base64 characters of a byte sequence, with `=` padding; models
`btoa(String.fromCharCode(...bytes))`. -/
def base64Chars : List Nat → List Char
  | [] => []
  | [b0] => [b64Char (b0 / 4), b64Char (b0 % 4 * 16), '=', '=']
  | [b0, b1] =>
      [b64Char (b0 / 4), b64Char (b0 % 4 * 16 + b1 / 16), b64Char (b1 % 16 * 4), '=']
  | b0 :: b1 :: b2 :: rest =>
      b64Char (b0 / 4) :: b64Char (b0 % 4 * 16 + b1 / 16) ::
      b64Char (b1 % 16 * 4 + b2 / 64) :: b64Char (b2 % 64) :: base64Chars rest

/-- Base64 encoding of a byte sequence as a string. -/
def base64Encode (bytes : List Nat) : String := ⟨base64Chars bytes⟩

/-- UTF-8 bytes of one character (model of `TextEncoder`). -/
def utf8Char (c : Char) : List Nat :=
  let n := c.toNat
  if n < 128 then [n]
  else if n < 2048 then [192 + n / 64, 128 + n % 64]
  else if n < 65536 then [224 + n / 4096, 128 + n / 64 % 64, 128 + n % 64]
  else [240 + n / 262144, 128 + n / 4096 % 64, 128 + n / 64 % 64, 128 + n % 64]

/-- UTF-8 bytes of a string (model of `new TextEncoder().encode`). -/
def strBytes (s : String) : List Nat := (s.toList.map utf8Char).flatten

/-! ## The signing function (`generateFeishuSign`, feishu.ts lines 23-40)

The source imports `secret` as the raw HMAC key
(`crypto.subtle.importKey('raw', encoder.encode(secret), ...)`) and signs
the byte sequence `timestamp + "\n" + secret`
(`crypto.subtle.sign('HMAC', key, encoder.encode(timestamp + "\n" + secret))`),
then base64-encodes the raw signature bytes via `btoa`. -/

/-- Embedding of `generateFeishuSign` from the source: HMAC-SHA-256 with
the secret as the key material and `timestamp + "\n" + secret` as the
message to be authenticated, base64-encoded. -/
def generateFeishuSign (secret timestamp : String) : String :=
  base64Encode (hmacSha256 (strBytes secret) (strBytes (timestamp ++ "\n" ++ secret)))

/-- The construction stated by the spec (refinement target, following the
spec's words only): `secret` as the message to be authenticated and
`timestamp + "\n" + secret` as the key material. -/
def specClaimedSign (secret timestamp : String) : String :=
  base64Encode (hmacSha256 (strBytes (timestamp ++ "\n" ++ secret)) (strBytes secret))

/-! ## JSON values and a model of `JSON.parse`

Modelled from the spec: the source calls JavaScript's built-in
`JSON.parse` (an external collaborator, spec section 9: "validated only
for 'is it valid JSON'").  `Json` represents a JavaScript runtime value
that can result from parsing (or be supplied already structured);
numeric literals are kept as lexemes, since no further computation in
this unit inspects their numeric value. -/

inductive Json where
  | null
  | bool (b : Bool)
  | num (lit : String)
  | str (s : String)
  | arr (elems : List Json)
  | obj (fields : List (String × Json))

/-- JSON whitespace. -/
def isWs (c : Char) : Bool := c == ' ' || c == '\t' || c == '\n' || c == '\r'

/-- Drop leading JSON whitespace. -/
def skipWs : List Char → List Char
  | [] => []
  | c :: cs => if isWs c then skipWs cs else c :: cs

/-- ASCII decimal digit test. -/
def isDigit (c : Char) : Bool := '0' ≤ c && c ≤ '9'

/-- Value of one hexadecimal digit. -/
def hexVal (c : Char) : Option Nat :=
  if '0' ≤ c && c ≤ '9' then some (c.toNat - 48)
  else if 'a' ≤ c && c ≤ 'f' then some (c.toNat - 87)
  else if 'A' ≤ c && c ≤ 'F' then some (c.toNat - 55)
  else none

/-- Parse the remainder of a JSON string literal (the opening quote already
consumed); `acc` is the accumulated content in reverse.  Lone-surrogate
`\u` escapes are mapped through `Char.ofNat`'s default, which no claim
depends on. -/
def parseStringRest : List Char → List Char → Option (String × List Char)
  | acc, '"' :: cs => some (⟨acc.reverse⟩, cs)
  | acc, '\\' :: '"' :: cs => parseStringRest ('"' :: acc) cs
  | acc, '\\' :: '\\' :: cs => parseStringRest ('\\' :: acc) cs
  | acc, '\\' :: '/' :: cs => parseStringRest ('/' :: acc) cs
  | acc, '\\' :: 'b' :: cs => parseStringRest ('\x08' :: acc) cs
  | acc, '\\' :: 'f' :: cs => parseStringRest ('\x0c' :: acc) cs
  | acc, '\\' :: 'n' :: cs => parseStringRest ('\n' :: acc) cs
  | acc, '\\' :: 'r' :: cs => parseStringRest ('\r' :: acc) cs
  | acc, '\\' :: 't' :: cs => parseStringRest ('\t' :: acc) cs
  | acc, '\\' :: 'u' :: h1 :: h2 :: h3 :: h4 :: cs2 =>
    (match hexVal h1, hexVal h2, hexVal h3, hexVal h4 with
     | some a, some b, some c, some d =>
         parseStringRest (Char.ofNat (((a * 16 + b) * 16 + c) * 16 + d) :: acc) cs2
     | _, _, _, _ => none)
  | _, '\\' :: _ => none
  | acc, c :: cs => if c.toNat < 32 then none else parseStringRest (c :: acc) cs
  | _, [] => none

/-- Take a maximal run of decimal digits. -/
def takeDigits : List Char → List Char × List Char
  | c :: cs =>
      if isDigit c then
        let p := takeDigits cs
        (c :: p.1, p.2)
      else ([], c :: cs)
  | [] => ([], [])

/-- JSON integer part: `0` or a nonzero digit followed by digits. -/
def parseIntPart : List Char → Option (List Char × List Char)
  | '0' :: cs => some (['0'], cs)
  | c :: cs =>
      if isDigit c then
        let p := takeDigits cs
        some (c :: p.1, p.2)
      else none
  | [] => none

/-- JSON fraction part (possibly empty). -/
def parseFracPart : List Char → Option (List Char × List Char)
  | '.' :: cs =>
      let p := takeDigits cs
      if p.1.isEmpty then none else some ('.' :: p.1, p.2)
  | cs => some ([], cs)

/-- JSON exponent part (possibly empty). -/
def parseExpPart : List Char → Option (List Char × List Char)
  | c :: cs =>
    if c == 'e' || c == 'E' then
      match cs with
      | s :: cs2 =>
        if s == '+' || s == '-' then
          let p := takeDigits cs2
          if p.1.isEmpty then none else some (c :: s :: p.1, p.2)
        else
          let p := takeDigits cs
          if p.1.isEmpty then none else some (c :: p.1, p.2)
      | [] => none
    else some ([], c :: cs)
  | [] => some ([], [])

/-- Parse a JSON number, keeping its lexeme. -/
def parseNumber (cs : List Char) : Option (String × List Char) :=
  let start := match cs with
    | '-' :: r => (['-'], r)
    | r => (([] : List Char), r)
  match parseIntPart start.2 with
  | none => none
  | some (ip, cs2) =>
    match parseFracPart cs2 with
    | none => none
    | some (fp, cs3) =>
      match parseExpPart cs3 with
      | none => none
      | some (ep, cs4) => some (⟨start.1 ++ ip ++ fp ++ ep⟩, cs4)

mutual

/-- Parse one JSON value; `fuel` strictly decreases on every recursive
call and is replenished from the input length at top level. -/
def parseVal : Nat → List Char → Option (Json × List Char)
  | 0, _ => none
  | fuel + 1, cs =>
    match skipWs cs with
    | 'n' :: 'u' :: 'l' :: 'l' :: r => some (Json.null, r)
    | 't' :: 'r' :: 'u' :: 'e' :: r => some (Json.bool true, r)
    | 'f' :: 'a' :: 'l' :: 's' :: 'e' :: r => some (Json.bool false, r)
    | '"' :: r => (parseStringRest [] r).map (fun p => (Json.str p.1, p.2))
    | '[' :: r =>
      (match skipWs r with
       | ']' :: r2 => some (Json.arr [], r2)
       | r2 => (parseElems fuel r2).map (fun p => (Json.arr p.1, p.2)))
    | '{' :: r =>
      (match skipWs r with
       | '}' :: r2 => some (Json.obj [], r2)
       | r2 => (parseMembers fuel r2).map (fun p => (Json.obj p.1, p.2)))
    | cs2 => (parseNumber cs2).map (fun p => (Json.num p.1, p.2))

/-- Parse the elements of a non-empty JSON array up to `]`. -/
def parseElems : Nat → List Char → Option (List Json × List Char)
  | 0, _ => none
  | fuel + 1, cs =>
    match parseVal fuel cs with
    | none => none
    | some (j, r) =>
      match skipWs r with
      | ',' :: r2 => (parseElems fuel r2).map (fun p => (j :: p.1, p.2))
      | ']' :: r2 => some ([j], r2)
      | _ => none

/-- Parse the members of a non-empty JSON object up to the closing brace. -/
def parseMembers : Nat → List Char → Option (List (String × Json) × List Char)
  | 0, _ => none
  | fuel + 1, cs =>
    match skipWs cs with
    | '"' :: r =>
      (match parseStringRest [] r with
       | none => none
       | some (k, r2) =>
         match skipWs r2 with
         | ':' :: r3 =>
           (match parseVal fuel r3 with
            | none => none
            | some (v, r4) =>
              match skipWs r4 with
              | ',' :: r5 => (parseMembers fuel r5).map (fun p => ((k, v) :: p.1, p.2))
              | '}' :: r5 => some ([(k, v)], r5)
              | _ => none)
         | _ => none)
    | _ => none

end

/-- Model of `JSON.parse`: parse one value, allowing surrounding
whitespace, and reject trailing input; `none` models the thrown
`SyntaxError`. -/
def parseJson (s : String) : Option Json :=
  match parseVal (s.toList.length + 2) s.toList with
  | some (j, rest) => if (skipWs rest).isEmpty then some j else none
  | none => none

/-- JavaScript string coercion of a value interpolated into a template
literal (`String(v)`): strings verbatim, arrays joined by commas,
objects as `[object Object]`.  `fuel` bounds nesting depth and is
replenished from the originating text's length at the call site. -/
def jsDisplay : Nat → Json → String
  | _, Json.null => "null"
  | _, Json.bool true => "true"
  | _, Json.bool false => "false"
  | _, Json.num lit => lit
  | _, Json.str s => s
  | 0, Json.arr _ => ""
  | fuel + 1, Json.arr xs => String.intercalate "," (xs.map (jsDisplay fuel))
  | _, Json.obj _ => "[object Object]"

/-- Errors that JavaScript property access can signal: reading a
property of `null` throws a TypeError (its text is engine-supplied). -/
inductive JsAccessError where
  | typeError
deriving DecidableEq

/-- JavaScript property lookup `data.msg`: on `null` the access itself
throws a TypeError; on an object the last binding of the key wins (as
for duplicate keys under `JSON.parse`); on any other value the property
is absent (`undefined`). -/
def getField (j : Json) (key : String) : Except JsAccessError (Option Json) :=
  match j with
  | Json.null => Except.error JsAccessError.typeError
  | Json.obj fs =>
      Except.ok (((fs.filter (fun p => p.1 == key)).getLast?).map (fun p => p.2))
  | _ => Except.ok none

/-- Interpolation of `data.msg` into the failure template literal:
`undefined` when the property is absent. -/
def templateShow (fuel : Nat) : Option Json → String
  | none => "undefined"
  | some j => jsDisplay fuel j

/-! ## The message and options model (`FeishuMessage`, `SendMessageOptions`)

`FeishuMessage` mirrors the interface at feishu.ts lines 3-21.  The TS
types annotate structured shapes, but the runtime values flowing through
`sendMessage` may carry raw JSON-encoded strings where the normalization
step expects them, so the payload leaves are modelled as JavaScript
runtime values (`Json`), with absence as `Option`. -/

/-- The `msg_type` discriminant union `"text" | "post" | "interactive"`. -/
inductive MsgType where
  | text
  | post
  | interactive
deriving DecidableEq

/-- String tag of a `msg_type` value. -/
def MsgType.tag : MsgType → String
  | .text => "text"
  | .post => "post"
  | .interactive => "interactive"

/-- The `zh_cn` record of a rich-text payload (feishu.ts lines 8-15);
`content` is declared as structured blocks but may arrive as a raw JSON
string. -/
structure ZhCn where
  title : Option Json
  content : Option Json


/-- The `post` payload wrapper (`content.post.zh_cn`). -/
structure PostPayload where
  zh_cn : ZhCn


/-- The `content` record of a `FeishuMessage` (feishu.ts lines 5-18). -/
structure MessageContent where
  text : Option Json
  post : Option PostPayload
  card : Option Json


/-- The `FeishuMessage` interface (feishu.ts lines 3-21). -/
structure FeishuMessage where
  msg_type : MsgType
  content : MessageContent
  timestamp : Option String
  sign : Option String


/-- Modelled from the spec: `SendMessageOptions` is imported from
`./base`, which is not part of this unit; per spec section 3,
`DeliveryOptions` is an endpoint plus an optional secret, and
`sendMessage` destructures it as `{ webhook, secret }`. -/
structure SendMessageOptions where
  webhook : Option String
  secret : Option String

/-- JavaScript truthiness of an optional string: `undefined` and `""`
are falsy, every other string is truthy. -/
def truthyStr : Option String → Bool
  | none => false
  | some s => !(s == "")

/-! ## The static template catalog (feishu.ts lines 42-144) -/

/-- Modelled from the spec: the `FieldSpec` shape belongs to
`ChannelConfig` in `./base` (not part of this unit); spec section 3
gives it as key, description, required flag, UI component hint, optional
default value and placeholder.  Properties a template omits are `none`;
the component and default values this channel uses are strings. -/
structure FieldSpec where
  key : String
  description : Option String
  required : Option Bool
  component : Option String
  defaultValue : Option String
  placeholder : Option String
deriving DecidableEq

/-- Modelled from the spec: one message template, a type tag plus its
editable fields (spec section 3). -/
structure MessageTemplate where
  type : String
  name : String
  description : String
  fields : List FieldSpec
deriving DecidableEq

/-- Modelled from the spec: the per-channel metadata record (spec
section 3). -/
structure ChannelConfig where
  type : String
  label : String
  templates : List MessageTemplate
deriving DecidableEq

/-- Placeholder of the rich-text content field: the result of the
`JSON.stringify(...)` call at feishu.ts lines 67-81. -/
def postPlaceholder : String :=
  "[[\x7b\"tag\":\"text\",\"text\":\"项目有更新: \"\x7d,\x7b\"tag\":\"a\",\"text\":\"请查看\",\"href\":\"http://www.example.com/\"\x7d,\x7b\"tag\":\"at\",\"user_id\":\"ou_18eac8********17ad4f02e8bbbb\"\x7d]]"

/-- Placeholder of the card content field: the result of the
`JSON.stringify(..., null, 2)` call at feishu.ts lines 96-130. -/
def cardPlaceholder : String :=
  "\x7b\n" ++
  "  \"config\": \x7b\n" ++
  "    \"wide_screen_mode\": true\n" ++
  "  \x7d,\n" ++
  "  \"elements\": [\n" ++
  "    \x7b\n" ++
  "      \"tag\": \"div\",\n" ++
  "      \"text\": \x7b\n" ++
  "        \"content\": \"这是一个交互式卡片示例\",\n" ++
  "        \"tag\": \"lark_md\"\n" ++
  "      \x7d\n" ++
  "    \x7d,\n" ++
  "    \x7b\n" ++
  "      \"tag\": \"action\",\n" ++
  "      \"actions\": [\n" ++
  "        \x7b\n" ++
  "          \"tag\": \"button\",\n" ++
  "          \"text\": \x7b\n" ++
  "            \"tag\": \"plain_text\",\n" ++
  "            \"content\": \"查看详情\"\n" ++
  "          \x7d,\n" ++
  "          \"url\": \"https://example.com\",\n" ++
  "          \"type\": \"default\"\n" ++
  "        \x7d\n" ++
  "      ]\n" ++
  "    \x7d\n" ++
  "  ],\n" ++
  "  \"header\": \x7b\n" ++
  "    \"title\": \x7b\n" ++
  "      \"content\": \"通知标题\",\n" ++
  "      \"tag\": \"plain_text\"\n" ++
  "    \x7d,\n" ++
  "    \"template\": \"blue\"\n" ++
  "  \x7d\n" ++
  "\x7d"

/-- The text-message template (feishu.ts lines 47-55). -/
def textTemplate : MessageTemplate :=
  ⟨"text", "文本消息", "简单文本消息",
   [⟨"content.text", some "文本内容", some true, some "textarea", none, none⟩,
    ⟨"msg_type", none, none, some "hidden", some "text", none⟩]⟩

/-- The rich-text template (feishu.ts lines 56-85). -/
def postTemplate : MessageTemplate :=
  ⟨"post", "富文本消息", "支持标题和格式化内容的富文本消息",
   [⟨"content.post.zh_cn.title", some "标题", some true, none, none, none⟩,
    ⟨"content.post.zh_cn.content",
     some "富文本内容(JSON格式), 具体格式请参考<a target=\x27_blank\x27 href=\x27https://open.feishu.cn/document/client-docs/bot-v3/add-custom-bot#f62e72d5\x27>飞书文档</a>",
     some true, some "textarea", none, some postPlaceholder⟩,
    ⟨"msg_type", none, none, some "hidden", some "post", none⟩]⟩

/-- The interactive-card template (feishu.ts lines 86-134). -/
def interactiveTemplate : MessageTemplate :=
  ⟨"interactive", "交互式卡片", "支持丰富交互元素的卡片消息",
   [⟨"content.card",
     some "卡片内容(JSON格式), 具体格式请参考<a target=\x27_blank\x27 href=\x27https://open.feishu.cn/document/ukTMukTMukTM/ugTNwUjL4UDM14CO1ATN\x27>飞书卡片文档</a>",
     some true, some "textarea", none, some cardPlaceholder⟩,
    ⟨"msg_type", none, none, some "hidden", some "interactive", none⟩]⟩

/-- The static, readonly channel configuration (feishu.ts lines 43-136). -/
def feishuConfig : ChannelConfig :=
  ⟨"feishu", "飞书群机器人", [textTemplate, postTemplate, interactiveTemplate]⟩

/-- Embedding of `FeishuChannel.getLabel` (lines 138-140). -/
def getLabel : String := feishuConfig.label

/-- Embedding of `FeishuChannel.getTemplates` (lines 142-144).  The
source class holds no mutable state (`config` is `readonly`, and
`sendMessage` neither reads nor writes it), so the catalog is a
constant of the embedding. -/
def getTemplates : List MessageTemplate := feishuConfig.templates

/-! ## Errors and transport -/

/-- Message of the error thrown for a missing webhook (feishu.ts line 153). -/
def webhookMissingMsg : String := "飞书机器人 Webhook 不能为空"

/-- Message of the error thrown for malformed rich-text JSON (line 161). -/
def richTextFormatErrorMsg : String := "富文本内容格式不正确，请提供有效的JSON格式"

/-- Message of the error thrown for malformed card JSON (line 170). -/
def cardFormatErrorMsg : String := "交互式卡片内容格式不正确，请提供有效的JSON格式"

/-- Prefix of the delivery-failure message (line 193). -/
def deliveryFailPrefix : String := "飞书消息推送失败: "

/-- The failures `sendMessage` can surface.  The source throws plain
`Error`s distinguished by message text; the first three constructors
record one throw site each, carrying the exact source message.
`responseBodyError` models the `SyntaxError` with which
`response.json()` rejects when a non-success response body is not valid
JSON, and `msgAccessError` the `TypeError` thrown by reading `data.msg`
when the parsed body is `null` (both texts are engine-supplied, not
chosen by this code). -/
inductive SendError where
  | configurationError (message : String)
  | payloadFormatError (message : String)
  | deliveryError (message : String)
  | responseBodyError
  | msgAccessError
deriving DecidableEq

/-- The transport response as this unit consumes it: the `ok` flag and
the raw body text that `response.json()` would parse. -/
structure FetchResponse where
  ok : Bool
  body : String
deriving DecidableEq

/-- Everything observable about one `sendMessage` call: its
result, the body handed to `fetch` (`none` when no network call was
made), and the caller's message object after the call (the source
mutates its argument in place). -/
structure SendOutcome where
  result : Except SendError FetchResponse
  sentBody : Option FeishuMessage
  finalMessage : FeishuMessage

/-! ## The `sendMessage` pipeline (feishu.ts lines 146-197) -/

/-- The value at `message.content.post?.zh_cn.content`, as read (with
optional chaining) by the normalization step at line 157. -/
def postContentVal (m : FeishuMessage) : Option Json :=
  match m.content.post with
  | some p => p.zh_cn.content
  | none => none

/-- Rich-text normalization (lines 156-163): when `msg_type` is `"post"`
and `content.post?.zh_cn.content` is a string, parse it and store the
parsed value back; a parse failure throws, leaving the message
untouched. -/
def normalizePost (m : FeishuMessage) : Except SendError FeishuMessage :=
  if m.msg_type = MsgType.post then
    match m.content.post with
    | some p =>
      (match p.zh_cn.content with
       | some (Json.str s) =>
         (match parseJson s with
          | some j =>
              Except.ok { m with content := { m.content with
                post := some { zh_cn := { title := p.zh_cn.title, content := some j } } } }
          | none => Except.error (SendError.payloadFormatError richTextFormatErrorMsg))
       | _ => Except.ok m)
    | none => Except.ok m
  else Except.ok m

/-- Card normalization (lines 165-172): when `msg_type` is
`"interactive"` and `content.card` is a string, parse it and store the
parsed value back; a parse failure throws, leaving the message
untouched. -/
def normalizeCard (m : FeishuMessage) : Except SendError FeishuMessage :=
  if m.msg_type = MsgType.interactive then
    match m.content.card with
    | some (Json.str s) =>
      (match parseJson s with
       | some j => Except.ok { m with content := { m.content with card := some j } }
       | none => Except.error (SendError.payloadFormatError cardFormatErrorMsg))
    | _ => Except.ok m
  else Except.ok m

/-- Both normalization steps in source order. -/
def normalizeMessage (m : FeishuMessage) : Except SendError FeishuMessage :=
  match normalizePost m with
  | Except.ok m1 => normalizeCard m1
  | Except.error e => Except.error e

/-- The signing step (lines 174-179): when the secret is truthy, stamp
the message with the current Unix time in seconds and the signature over
that secret and timestamp; otherwise leave the message unchanged. -/
def applySign (secret : Option String) (now : Nat) (m : FeishuMessage) : FeishuMessage :=
  match secret with
  | some s =>
    if s == "" then m
    else
      let timestamp := toString now
      { m with timestamp := some timestamp,
               sign := some (generateFeishuSign s timestamp) }
  | none => m

/-- Response handling (lines 191-196): a non-`ok` response has its body
parsed by `response.json()` (whose rejection propagates), then
`data.msg` is read (throwing a TypeError when `data` is `null`) and
interpolated into the failure message; an `ok` response is returned
as-is. -/
def handleResponse (resp : FetchResponse) : Except SendError FetchResponse :=
  if resp.ok then Except.ok resp
  else
    match parseJson resp.body with
    | none => Except.error SendError.responseBodyError
    | some data =>
      match getField data "msg" with
      | Except.error JsAccessError.typeError => Except.error SendError.msgAccessError
      | Except.ok mv =>
          Except.error (SendError.deliveryError
            (deliveryFailPrefix ++ templateShow resp.body.length mv))

/-- Embedding of `FeishuChannel.sendMessage` (lines 146-197).  `now` is
`Math.floor(Date.now() / 1000)`; `transport` is the `fetch` collaborator,
mapping the posted JSON body to the response. -/
def sendMessage (now : Nat) (transport : FeishuMessage → FetchResponse)
    (message : FeishuMessage) (options : SendMessageOptions) : SendOutcome :=
  if truthyStr options.webhook = false then
    ⟨Except.error (SendError.configurationError webhookMissingMsg), none, message⟩
  else
    match normalizeMessage message with
    | Except.error e => ⟨Except.error e, none, message⟩
    | Except.ok m1 =>
      let m2 := applySign options.secret now m1
      ⟨handleResponse (transport m2), some m2, m2⟩

/-! ## Result classifiers and concrete fixtures -/

/-- Whether a result is a payload-format failure. -/
def isPayloadFormatError : Except SendError FetchResponse → Bool
  | Except.error (SendError.payloadFormatError _) => true
  | _ => false

/-- A well-formed text message carrying the text "hi". -/
def msgTextHi : FeishuMessage :=
  ⟨MsgType.text, ⟨some (Json.str "hi"), none, none⟩, none, none⟩

/-- A rich-text message whose nested content field is the string
"not json". -/
def msgPostBad : FeishuMessage :=
  ⟨MsgType.post, ⟨none, some ⟨⟨some (Json.str "标题"), some (Json.str "not json")⟩⟩, none⟩,
   none, none⟩

/-- A card message whose card field is the string "not json". -/
def msgCardBad : FeishuMessage :=
  ⟨MsgType.interactive, ⟨none, none, some (Json.str "not json")⟩, none, none⟩

/-- A rich-text message whose nested content field is the JSON-encoded
string "[[]]". -/
def msgPostGood : FeishuMessage :=
  ⟨MsgType.post, ⟨none, some ⟨⟨some (Json.str "t"), some (Json.str "[[]]")⟩⟩, none⟩,
   none, none⟩

/-- `msgPostGood` after normalization: the string replaced by its parsed
value. -/
def msgPostGoodParsed : FeishuMessage :=
  ⟨MsgType.post, ⟨none, some ⟨⟨some (Json.str "t"), some (Json.arr [Json.arr []])⟩⟩, none⟩,
   none, none⟩

/-- A rich-text message whose nested content field is already
structured. -/
def msgPostStructured : FeishuMessage :=
  ⟨MsgType.post, ⟨none, some ⟨⟨some (Json.str "t"), some (Json.arr [])⟩⟩, none⟩,
   none, none⟩

/-- A transport that always answers success with an empty body. -/
def okTransport : FeishuMessage → FetchResponse := fun _ => ⟨true, ""⟩

/-- A transport that always answers non-success with the given body. -/
def failTransport (body : String) : FeishuMessage → FetchResponse := fun _ => ⟨false, body⟩

/-- Delivery options with a well-formed endpoint and no secret. -/
def hookOpts : SendMessageOptions := ⟨some "https://example.com/hook", none⟩

/-- The non-success response body of the spec's delivery-error example. -/
def invalidTokenBody : String := "\x7b\"msg\":\"invalid token\"\x7d"

/-! ## Helper lemmas -/

/-- Response handling never produces a payload-format failure. -/
theorem isPayloadFormatError_handleResponse (r : FetchResponse) :
    isPayloadFormatError (handleResponse r) = false := by
  unfold handleResponse
  by_cases h : r.ok
  · simp [h, isPayloadFormatError]
  · simp [h]
    cases parseJson r.body with
    | none => simp [isPayloadFormatError]
    | some j =>
      cases hg : getField j "msg" with
      | error e => cases e; simp [hg, isPayloadFormatError]
      | ok mv => simp [hg, isPayloadFormatError]

/-- Rich-text normalization touches only `content`. -/
theorem normalizePost_fields (m m1 : FeishuMessage) (h : normalizePost m = Except.ok m1) :
    m1.msg_type = m.msg_type ∧ m1.timestamp = m.timestamp ∧ m1.sign = m.sign ∧
    m1.content.card = m.content.card := by
  unfold normalizePost at h
  split at h
  · split at h
    · split at h
      · split at h
        · exact Except.ok.inj h ▸ by simp
        · exact absurd h (by simp)
      · exact Except.ok.inj h ▸ by simp
    · exact Except.ok.inj h ▸ by simp
  · exact Except.ok.inj h ▸ by simp

/-- Card normalization touches only `content`. -/
theorem normalizeCard_fields (m m1 : FeishuMessage) (h : normalizeCard m = Except.ok m1) :
    m1.msg_type = m.msg_type ∧ m1.timestamp = m.timestamp ∧ m1.sign = m.sign := by
  unfold normalizeCard at h
  split at h
  · split at h
    · split at h
      · exact Except.ok.inj h ▸ by simp
      · exact absurd h (by simp)
    · exact Except.ok.inj h ▸ by simp
  · exact Except.ok.inj h ▸ by simp

/-- Normalization touches only `content`. -/
theorem normalizeMessage_fields (m m1 : FeishuMessage)
    (h : normalizeMessage m = Except.ok m1) :
    m1.msg_type = m.msg_type ∧ m1.timestamp = m.timestamp ∧ m1.sign = m.sign := by
  unfold normalizeMessage at h
  split at h
  case h_1 mm hm =>
    obtain ⟨h1, h2, h3, _⟩ := normalizePost_fields _ _ hm
    obtain ⟨g1, g2, g3⟩ := normalizeCard_fields _ _ h
    exact ⟨g1.trans h1, g2.trans h2, g3.trans h3⟩
  case h_2 => exact absurd h (by simp)

/-- Rich-text normalization is the identity when the nested content
field is not presented as a string. -/
theorem normalizePost_ok_of_not_str (m : FeishuMessage)
    (h : m.msg_type = MsgType.post → ∀ s, postContentVal m ≠ some (Json.str s)) :
    normalizePost m = Except.ok m := by
  by_cases hmt : m.msg_type = MsgType.post
  · cases hp : m.content.post with
    | none => simp [normalizePost, hmt, hp]
    | some p =>
      cases hc : p.zh_cn.content with
      | none => simp [normalizePost, hmt, hp, hc]
      | some j =>
        cases j with
        | str s => exact absurd (by simp [postContentVal, hp, hc]) (h hmt s)
        | null => simp [normalizePost, hmt, hp, hc]
        | bool b => simp [normalizePost, hmt, hp, hc]
        | num l => simp [normalizePost, hmt, hp, hc]
        | arr xs => simp [normalizePost, hmt, hp, hc]
        | obj fs => simp [normalizePost, hmt, hp, hc]
  · simp [normalizePost, hmt]

/-- Card normalization is the identity when the card field is not
presented as a string. -/
theorem normalizeCard_ok_of_not_str (m : FeishuMessage)
    (h : m.msg_type = MsgType.interactive → ∀ s, m.content.card ≠ some (Json.str s)) :
    normalizeCard m = Except.ok m := by
  by_cases hmt : m.msg_type = MsgType.interactive
  · cases hc : m.content.card with
    | none => simp [normalizeCard, hmt, hc]
    | some j =>
      cases j with
      | str s => exact absurd (hc.trans rfl) (h hmt s)
      | null => simp [normalizeCard, hmt, hc]
      | bool b => simp [normalizeCard, hmt, hc]
      | num l => simp [normalizeCard, hmt, hc]
      | arr xs => simp [normalizeCard, hmt, hc]
      | obj fs => simp [normalizeCard, hmt, hc]
  · simp [normalizeCard, hmt]

/-! ## Claim theorems -/

/-- C2: with an empty or absent webhook, `sendMessage` fails with the
missing-endpoint configuration error whatever the message, clock,
secret and transport; no body is handed to the transport and the
message is left untouched. -/
theorem sendMessage_missing_webhook (now : Nat) (tr : FeishuMessage → FetchResponse)
    (m : FeishuMessage) (o : SendMessageOptions) (h : truthyStr o.webhook = false) :
    sendMessage now tr m o =
      ⟨Except.error (SendError.configurationError webhookMissingMsg), none, m⟩ := by
  simp [sendMessage, h]

/-- C2 witness: an absent webhook and an empty webhook, at a concrete
text message. -/
theorem sendMessage_missing_webhook_witness :
    sendMessage 0 okTransport msgTextHi ⟨none, none⟩ =
      ⟨Except.error (SendError.configurationError webhookMissingMsg), none, msgTextHi⟩ ∧
    sendMessage 0 okTransport msgTextHi ⟨some "", some "abc"⟩ =
      ⟨Except.error (SendError.configurationError webhookMissingMsg), none, msgTextHi⟩ :=
  ⟨sendMessage_missing_webhook 0 okTransport msgTextHi ⟨none, none⟩ rfl,
   sendMessage_missing_webhook 0 okTransport msgTextHi ⟨some "", some "abc"⟩ rfl⟩

/-- C3: with a truthy webhook, a rich-text message whose nested content
field is a string that does not parse fails with the rich-text
payload-format error, a card message whose card field is a string that
does not parse fails with the card payload-format error, in both cases
before any network call, and the two error identities are distinct. -/
theorem sendMessage_malformed_json (now : Nat) (tr : FeishuMessage → FetchResponse)
    (m : FeishuMessage) (o : SendMessageOptions) (s : String)
    (hw : truthyStr o.webhook = true) (hbad : parseJson s = none) :
    (m.msg_type = MsgType.post → postContentVal m = some (Json.str s) →
       sendMessage now tr m o =
         ⟨Except.error (SendError.payloadFormatError richTextFormatErrorMsg), none, m⟩) ∧
    (m.msg_type = MsgType.interactive → m.content.card = some (Json.str s) →
       sendMessage now tr m o =
         ⟨Except.error (SendError.payloadFormatError cardFormatErrorMsg), none, m⟩) ∧
    richTextFormatErrorMsg ≠ cardFormatErrorMsg := by
  refine ⟨?_, ?_, by decide⟩
  · intro ht hc
    cases hp : m.content.post with
    | none => rw [postContentVal, hp] at hc; exact absurd hc (by simp)
    | some p =>
      simp only [postContentVal, hp] at hc
      simp [sendMessage, hw, normalizeMessage, normalizePost, ht, hp, hc, hbad]
  · intro ht hc
    have hpost : normalizePost m = Except.ok m := by
      simp [normalizePost, ht]
    simp [sendMessage, hw, normalizeMessage, hpost, normalizeCard, ht, hc, hbad]

/-- C3 witness: the two malformed-JSON failures at the string
"not json". -/
theorem sendMessage_malformed_json_witness :
    sendMessage 0 okTransport msgPostBad hookOpts =
      ⟨Except.error (SendError.payloadFormatError richTextFormatErrorMsg), none, msgPostBad⟩ ∧
    sendMessage 0 okTransport msgCardBad hookOpts =
      ⟨Except.error (SendError.payloadFormatError cardFormatErrorMsg), none, msgCardBad⟩ :=
  ⟨(sendMessage_malformed_json 0 okTransport msgPostBad hookOpts "not json" rfl rfl).1 rfl rfl,
   (sendMessage_malformed_json 0 okTransport msgCardBad hookOpts "not json" rfl rfl).2.1 rfl rfl⟩

/-- C10: a text message undergoes no normalization parsing at all —
normalization is the identity whatever `content` holds — and, with a
truthy webhook, the call can never fail with a payload-format error and
always proceeds to signing and transport. -/
theorem sendMessage_text_no_parse (now : Nat) (tr : FeishuMessage → FetchResponse)
    (m : FeishuMessage) (o : SendMessageOptions)
    (htext : m.msg_type = MsgType.text) (hw : truthyStr o.webhook = true) :
    normalizeMessage m = Except.ok m ∧
    isPayloadFormatError (sendMessage now tr m o).result = false ∧
    (sendMessage now tr m o).sentBody = some (applySign o.secret now m) := by
  have hn : normalizeMessage m = Except.ok m := by
    simp [normalizeMessage, normalizePost, normalizeCard, htext]
  refine ⟨hn, ?_, ?_⟩
  · simp [sendMessage, hw, hn, isPayloadFormatError_handleResponse]
  · simp [sendMessage, hw, hn]

/-- C10 witness: a text message with a truthy webhook at a concrete
input. -/
theorem sendMessage_text_no_parse_witness :
    normalizeMessage msgTextHi = Except.ok msgTextHi ∧
    isPayloadFormatError (sendMessage 0 okTransport msgTextHi hookOpts).result = false ∧
    (sendMessage 0 okTransport msgTextHi hookOpts).sentBody =
      some (applySign hookOpts.secret 0 msgTextHi) :=
  sendMessage_text_no_parse 0 okTransport msgTextHi hookOpts rfl rfl

/-- C6: when the rich-text content field (for a rich-text message) and
the card field (for a card message) are not presented as strings, no
parsing is attempted — normalization is the identity — and the call can
never fail with a payload-format error. -/
theorem sendMessage_structured_no_parse (now : Nat) (tr : FeishuMessage → FetchResponse)
    (m : FeishuMessage) (o : SendMessageOptions)
    (hpost : m.msg_type = MsgType.post → ∀ s, postContentVal m ≠ some (Json.str s))
    (hcard : m.msg_type = MsgType.interactive → ∀ s, m.content.card ≠ some (Json.str s)) :
    normalizeMessage m = Except.ok m ∧
    isPayloadFormatError (sendMessage now tr m o).result = false := by
  have hn : normalizeMessage m = Except.ok m := by
    simp [normalizeMessage, normalizePost_ok_of_not_str m hpost,
          normalizeCard_ok_of_not_str m hcard]
  refine ⟨hn, ?_⟩
  by_cases hw : truthyStr o.webhook = true
  · simp [sendMessage, hw, hn, isPayloadFormatError_handleResponse]
  · rw [Bool.not_eq_true] at hw
    simp [sendMessage, hw, isPayloadFormatError]

/-- C6 witness: a rich-text message whose content field is already a
structured (non-string) value. -/
theorem sendMessage_structured_no_parse_witness :
    normalizeMessage msgPostStructured = Except.ok msgPostStructured ∧
    isPayloadFormatError (sendMessage 0 okTransport msgPostStructured hookOpts).result = false :=
  sendMessage_structured_no_parse 0 okTransport msgPostStructured hookOpts
    (fun _ _ h => Json.noConfusion (Option.some.inj h))
    (fun _ _ h => Option.noConfusion h)

/-- C4 amended: for a message carrying no prior timestamp/sign (the
template catalog addresses neither) that normalizes successfully, with a
truthy webhook: an absent or empty secret sends the body with no
timestamp and no sign, and a non-empty secret sends the body stamped
with the current Unix seconds (as a string) and with the signing
function applied to that secret and that same timestamp. -/
theorem sendMessage_signing (now : Nat) (tr : FeishuMessage → FetchResponse)
    (m : FeishuMessage) (o : SendMessageOptions) (m1 : FeishuMessage)
    (hw : truthyStr o.webhook = true)
    (hts : m.timestamp = none) (hsg : m.sign = none)
    (hn : normalizeMessage m = Except.ok m1) :
    ((o.secret = none ∨ o.secret = some "") →
       (sendMessage now tr m o).sentBody = some m1 ∧
       m1.timestamp = none ∧ m1.sign = none) ∧
    (∀ s, o.secret = some s → s ≠ "" →
       (sendMessage now tr m o).sentBody =
         some { m1 with timestamp := some (toString now),
                        sign := some (generateFeishuSign s (toString now)) }) := by
  obtain ⟨-, h2, h3⟩ := normalizeMessage_fields m m1 hn
  constructor
  · intro hsec
    have happ : applySign o.secret now m1 = m1 := by
      cases hsec with
      | inl h => simp [applySign, h]
      | inr h => simp [applySign, h]
    exact ⟨by simp [sendMessage, hw, hn, happ], h2.trans hts, h3.trans hsg⟩
  · intro s hsec hne
    have happ : applySign o.secret now m1 =
        { m1 with timestamp := some (toString now),
                  sign := some (generateFeishuSign s (toString now)) } := by
      simp [applySign, hsec, hne]
    simp [sendMessage, hw, hn, happ]

/-- C4 counterexample: with the secret property present but equal to the
empty string, the body goes out unsigned — no timestamp, no sign —
though the claim requires both whenever a secret is present. -/
theorem sendMessage_empty_secret_unsigned :
    (sendMessage 1700000000 okTransport msgTextHi
        ⟨some "https://example.com/hook", some ""⟩).sentBody = some msgTextHi ∧
    msgTextHi.timestamp = none ∧ msgTextHi.sign = none :=
  ⟨rfl, rfl, rfl⟩

/-- C4 witness: a concrete unsigned send (no secret) and a concrete
signed send (secret "abc" at time 1700000000). -/
theorem sendMessage_signing_witness :
    ((sendMessage 1700000000 okTransport msgTextHi hookOpts).sentBody = some msgTextHi ∧
       msgTextHi.timestamp = none ∧ msgTextHi.sign = none) ∧
    (sendMessage 1700000000 okTransport msgTextHi
        ⟨some "https://example.com/hook", some "abc"⟩).sentBody =
      some { msgTextHi with timestamp := some (toString 1700000000),
                            sign := some (generateFeishuSign "abc" (toString 1700000000)) } :=
  ⟨(sendMessage_signing 1700000000 okTransport msgTextHi hookOpts msgTextHi
      rfl rfl rfl rfl).1 (Or.inl rfl),
   (sendMessage_signing 1700000000 okTransport msgTextHi
      ⟨some "https://example.com/hook", some "abc"⟩ msgTextHi
      rfl rfl rfl rfl).2 "abc" rfl (by decide)⟩

/-- C9: when the call fails with a delivery error, the caller's message
keeps every mutation: the final message equals the normalized and
signed body that went out on the wire — string payload fields replaced
by their parsed values and, when a secret was given, timestamp and sign
attached — and is not restored to its pre-call state. -/
theorem sendMessage_mutations_persist (now : Nat) (tr : FeishuMessage → FetchResponse)
    (m : FeishuMessage) (o : SendMessageOptions) (m1 : FeishuMessage) (e : String)
    (hn : normalizeMessage m = Except.ok m1)
    (hres : (sendMessage now tr m o).result = Except.error (SendError.deliveryError e)) :
    (sendMessage now tr m o).finalMessage = applySign o.secret now m1 ∧
    (sendMessage now tr m o).sentBody = some (applySign o.secret now m1) := by
  by_cases hw : truthyStr o.webhook = true
  · constructor <;> simp [sendMessage, hw, hn]
  · rw [Bool.not_eq_true] at hw
    simp [sendMessage, hw] at hres

/-- C9 witness: a rich-text message with a JSON-encoded content string
and a secret, delivered to a rejecting endpoint — the call fails with a
delivery error, yet the final message is the parsed-and-signed body. -/
theorem sendMessage_mutations_persist_witness :
    (sendMessage 1700000000 (failTransport invalidTokenBody) msgPostGood
        ⟨some "https://example.com/hook", some "abc"⟩).finalMessage =
      applySign (some "abc") 1700000000 msgPostGoodParsed ∧
    (sendMessage 1700000000 (failTransport invalidTokenBody) msgPostGood
        ⟨some "https://example.com/hook", some "abc"⟩).sentBody =
      some (applySign (some "abc") 1700000000 msgPostGoodParsed) :=
  sendMessage_mutations_persist 1700000000 (failTransport invalidTokenBody) msgPostGood
    ⟨some "https://example.com/hook", some "abc"⟩ msgPostGoodParsed
    (deliveryFailPrefix ++ "invalid token") rfl rfl

/-- C7: the template catalog is the fixed three-template list and is
non-empty.  The embedding has no channel state at all: the source class
holds only the `readonly config` constant, and `sendMessage` neither
reads nor writes it, so no operation can change what `getTemplates`
returns. -/
theorem getTemplates_fixed :
    getTemplates = [textTemplate, postTemplate, interactiveTemplate] ∧
    getTemplates ≠ [] :=
  ⟨rfl, by decide⟩

/-- C8: every template has exactly one hidden field, and every hidden
field addresses the `msg_type` discriminant with the template's own type
tag as its default value. -/
theorem templates_hidden_discriminant :
    ∀ t ∈ getTemplates,
      t.fields.countP (fun f => f.component == some "hidden") = 1 ∧
      ∀ f ∈ t.fields, f.component = some "hidden" →
        f.key = "msg_type" ∧ f.defaultValue = some t.type := by decide

/-- C8 witness: the text template is in the catalog and carries exactly
one hidden field. -/
theorem templates_hidden_discriminant_witness :
    textTemplate ∈ getTemplates ∧
    textTemplate.fields.countP (fun f => f.component == some "hidden") = 1 :=
  ⟨by decide, (templates_hidden_discriminant textTemplate (by decide)).1⟩

set_option maxRecDepth 1000000

/-- C1 counterexample: at secret "abc" and timestamp "1700000000", the
signing function differs from the construction the spec states (secret
as the message to be authenticated, timestamp-newline-secret as the key
material) — the source assigns the two roles the other way around. -/
theorem generateFeishuSign_role_swap :
    generateFeishuSign "abc" "1700000000" ≠ specClaimedSign "abc" "1700000000" := by
  decide

/-- C1 amended: for every secret and timestamp the signing function
returns the base64 encoding of the HMAC-SHA-256 computation in which the
secret is the key material and timestamp-newline-secret is the message
to be authenticated; in particular, for secret "abc" and timestamp
"1700000000" it reproduces the reference value of that construction
byte-for-byte. -/
theorem generateFeishuSign_correct :
    (∀ secret timestamp, generateFeishuSign secret timestamp =
       base64Encode (hmacSha256 (strBytes secret)
         (strBytes (timestamp ++ "\n" ++ secret)))) ∧
    generateFeishuSign "abc" "1700000000" =
      "vEg8s1sKF2lvRc7VeEdo8hrgzIxZkX+ZgxZ3JifYMjE=" :=
  ⟨fun _ _ => rfl, by decide⟩

end Feishu
